import Mathlib

/-
  Shallow embedding of the @magicbutton/state core store
  (src/src/core/state-manager.ts) in Lean 4.

  The embedding is parametric in the value type V (values held by atoms)
  and the selector result type R.  The snapshot is an association list
  from field id to value, built once from the schema keys and only ever
  updated entry-wise, exactly as the TypeScript object spread
  `state = { ...state, [atomKey]: v }` does.

  Non-determinism of the source (nanoid change ids, Date.now timestamps)
  is determinized by a per-store counter carried in the store state; the
  claims never depend on the concrete id or timestamp values.

  Side effects on the external collaborators (storage adapter `set`,
  sync adapter `sendChange`, subscriber callbacks, selector recomputes,
  console logging) are recorded in an explicit effect trace, in the order
  the source performs them.  The middleware list of the source is empty
  unless the debug-only `addMiddleware` is called; none of the modelled
  scenarios installs middleware, so `applyChange` is embedded as the
  terminal branch of `applyMiddlewares` applied to the original change,
  which is what `applyMiddlewares(0, change)` executes when the
  middleware list is empty.
-/

namespace MagicState

/-- A state change event, mirroring `StateChangeEvent` of the source.
`prevValue` is an `Option` because the source can carry `undefined`
there (the time-travel path synthesizes `prevValue: undefined`). -/
structure ChangeEvent (V : Type) where
  atomId : String
  prevValue : Option V
  newValue : V
  timestamp : Nat
  changeId : Nat
  source : String
  optimistic : Bool
deriving DecidableEq, Repr

/-- A selector registration as held in `selectorCache`:
an id, the frozen dependency set, and the compute function
(which, in the source, closes over the live state; here it takes the
snapshot as an argument). -/
structure SelectorReg (V R : Type) where
  id : String
  deps : List String
  compute : List (String × V) → R

/-- The immutable configuration of one store instance: the client id,
the per-field validator (`none` models a validator throw), the presence
of the storage and sync adapters, the debug flags, and the subscriber
registries (subscribers are identified by natural numbers). -/
structure StoreCfg (V R : Type) where
  clientId : String
  validate : String → V → Option V
  hasStorage : Bool
  hasSync : Bool
  timeTravel : Bool
  logChanges : Bool
  atomSubs : String → List Nat
  selectors : List (SelectorReg V R)
  selectorSubs : String → List Nat

/-- The mutable state of one store instance: the current snapshot,
the pause flag, the debug timeline, and the counter determinizing
fresh change ids and timestamps. -/
structure StoreState (V : Type) where
  snapshot : List (String × V)
  isPaused : Bool
  timeline : List (List (String × V) × ChangeEvent V)
  counter : Nat
deriving DecidableEq, Repr

/-- The trace of side effects produced by one or more operations:
calls to `storage.set` (key and value), calls to `sync.sendChange`,
atom subscriber callbacks (atom id, subscriber id, delivered event),
selector recomputations (selector ids whose compute ran), selector
subscriber callbacks (selector id, subscriber id, delivered value),
console log output, and the change events that reached the application
point of `applyChange`. -/
structure Effects (V R : Type) where
  storageSets : List (String × V)
  syncSends : List (ChangeEvent V)
  notifications : List (String × Nat × ChangeEvent V)
  selectorComputes : List String
  selectorNotifs : List (String × Nat × R)
  logs : List String
  appliedChanges : List (ChangeEvent V)
deriving DecidableEq, Repr

/-- The empty effect trace. -/
def Effects.empty {V R : Type} : Effects V R :=
  ⟨[], [], [], [], [], [], []⟩

/-- Sequential composition of effect traces. -/
def Effects.append {V R : Type} (a b : Effects V R) : Effects V R :=
  ⟨a.storageSets ++ b.storageSets,
   a.syncSends ++ b.syncSends,
   a.notifications ++ b.notifications,
   a.selectorComputes ++ b.selectorComputes,
   a.selectorNotifs ++ b.selectorNotifs,
   a.logs ++ b.logs,
   a.appliedChanges ++ b.appliedChanges⟩

instance {V R : Type} : Append (Effects V R) := ⟨Effects.append⟩

/-- Does the association list have an entry for the key?
Models the `atomKey in state` check. -/
def hasKey {V : Type} : List (String × V) → String → Bool
  | [], _ => false
  | (k, _) :: rest, key => if k = key then true else hasKey rest key

/-- Look up the value stored for a key (`state[atomKey]`). -/
def lookupKey {V : Type} : List (String × V) → String → Option V
  | [], _ => none
  | (k, v) :: rest, key => if k = key then some v else lookupKey rest key

/-- Replace the value of an existing key, keeping the key order;
models `{ ...state, [atomKey]: value }` on a known key (the spread
keeps the original key order and replaces the one entry; a key not in
the list is untouched, matching the guarded use after the
`atomKey in state` check). -/
def setKey {V : Type} : List (String × V) → String → V → List (String × V)
  | [], _, _ => []
  | (k, v0) :: rest, key, value =>
      if k = key then (key, value) :: setKey rest key value
      else (k, v0) :: setKey rest key value

/-- `updateSelectors(atomId)` of the source: find every cached selector
whose dependency set contains the changed atom, run its compute function
against the (already replaced) snapshot, and deliver the value to each
of its subscribers.  Returns the recomputed selector ids and the
selector notifications, in cache order. -/
def updateSelectors {V R : Type} (cfg : StoreCfg V R)
    (snap : List (String × V)) (atomId : String) :
    List String × List (String × Nat × R) :=
  let affected := cfg.selectors.filter (fun r => decide (atomId ∈ r.deps))
  (affected.map (fun r => r.id),
   affected.flatMap (fun r =>
     (cfg.selectorSubs r.id).map (fun sub => (r.id, sub, r.compute snap))))

/-- `applyChange(change)` of the source with the (default) empty
middleware list: skip when paused; skip when the atom id is not a key of
the snapshot; otherwise replace the entry, persist when a storage
adapter is present, send to the sync adapter when present and the change
is not optimistic, append to the timeline when time travel is on, notify
the atom subscribers with the event carrying the pre-change `prevValue`
and the post-change snapshot value as `newValue`, recompute and notify
the affected selectors, and log when change logging is on. -/
def applyChange {V R : Type} (cfg : StoreCfg V R) (st : StoreState V)
    (change : ChangeEvent V) : StoreState V × Effects V R :=
  if st.isPaused then (st, Effects.empty)
  else if hasKey st.snapshot change.atomId then
    let prevValue := lookupKey st.snapshot change.atomId
    let snap2 := setKey st.snapshot change.atomId change.newValue
    let timeline2 :=
      if cfg.timeTravel then st.timeline ++ [(snap2, change)] else st.timeline
    let sel := updateSelectors cfg snap2 change.atomId
    ({ st with snapshot := snap2, timeline := timeline2 },
     { storageSets :=
         if cfg.hasStorage then [("state:" ++ change.atomId, change.newValue)]
         else [],
       syncSends :=
         if cfg.hasSync && !change.optimistic then [change] else [],
       notifications :=
         (cfg.atomSubs change.atomId).map (fun sub =>
           (change.atomId, sub,
            { change with
                prevValue := prevValue,
                newValue := (lookupKey snap2 change.atomId).getD change.newValue })),
       selectorComputes := sel.1,
       selectorNotifs := sel.2,
       logs := if cfg.logChanges then ["State change " ++ change.atomId] else [],
       appliedChanges := [change] })
  else (st, Effects.empty)

/-- `createChangeEvent(atomId, newValue, optimistic)` of the source,
with the counter standing in for `Date.now()` and `nanoid()`. -/
def createChangeEvent {V : Type} (clientId : String) (st : StoreState V)
    (atomId : String) (newValue : V) (optimistic : Bool) : ChangeEvent V :=
  { atomId := atomId,
    prevValue := lookupKey st.snapshot atomId,
    newValue := newValue,
    timestamp := st.counter,
    changeId := st.counter,
    source := clientId,
    optimistic := optimistic }

/-- `updateAtom(atomId, value, optimistic)` of the source: validate the
value (a validator rejection is the thrown error, modelled as
`Except.error`), then create and apply the change event. -/
def updateAtom {V R : Type} (cfg : StoreCfg V R) (st : StoreState V)
    (atomId : String) (value : V) (optimistic : Bool) :
    Except Unit (StoreState V × Effects V R) :=
  match cfg.validate atomId value with
  | none => Except.error ()
  | some validated =>
      let change := createChangeEvent cfg.clientId st atomId validated optimistic
      Except.ok (applyChange cfg { st with counter := st.counter + 1 } change)

/-- The callback registered by `sync.subscribeToChanges` at startup:
discard events whose source is the local client id, apply the rest. -/
def receiveChange {V R : Type} (cfg : StoreCfg V R) (st : StoreState V)
    (change : ChangeEvent V) : StoreState V × Effects V R :=
  if change.source = cfg.clientId then (st, Effects.empty)
  else applyChange cfg st change

/-- A transaction as produced by `createTransaction()`: the `changes`
map of pending `(atomId, validated value)` entries in insertion order
(a JavaScript `Map` preserves insertion order and an overwrite keeps
the original position), and the write-only `previousValues` map. -/
structure Txn (V : Type) where
  changes : List (String × V)
  previousValues : List (String × Option V)
deriving DecidableEq, Repr

/-- The fresh transaction returned by `createTransaction()`. -/
def emptyTxn {V : Type} : Txn V := ⟨[], []⟩

/-- Insert or overwrite one entry of an insertion-ordered map
(`Map.set` of JavaScript): an existing key keeps its position, a new
key is appended. -/
def mapSet {α : Type} (l : List (String × α)) (key : String) (value : α) :
    List (String × α) :=
  if hasKey l key then
    l.map (fun p => if p.1 = key then (key, value) else p)
  else l ++ [(key, value)]

/-- The `update(atomId, value)` method of a transaction: record the
pre-transaction value on first touch (this happens before validation in
the source), then validate; a validator rejection is thrown (second
component `false`) after `previousValues` was already updated but
before `changes` is touched; on success the validated value overwrites
any pending entry for the same atom. -/
def txnUpdate {V R : Type} (cfg : StoreCfg V R) (st : StoreState V)
    (t : Txn V) (atomId : String) (value : V) : Txn V × Bool :=
  let prev2 :=
    if hasKey t.previousValues atomId then t.previousValues
    else t.previousValues ++ [(atomId, lookupKey st.snapshot atomId)]
  match cfg.validate atomId value with
  | none => ({ t with previousValues := prev2 }, false)
  | some validated =>
      ({ changes := mapSet t.changes atomId validated,
         previousValues := prev2 }, true)

/-- The loop body of `commit()`: apply each pending entry through
`updateAtom` in insertion order, accumulating the effect traces; a
thrown validation error propagates out of the loop (third component
`false`), leaving the entries already applied in place. -/
def commitList {V R : Type} (cfg : StoreCfg V R) :
    StoreState V → Effects V R → List (String × V) →
    StoreState V × Effects V R × Bool
  | st, acc, [] => (st, acc, true)
  | st, acc, (atomId, value) :: rest =>
      match updateAtom cfg st atomId value false with
      | Except.error _ => (st, acc, false)
      | Except.ok (st2, eff) => commitList cfg st2 (acc ++ eff) rest

/-- The `commit()` method of a transaction: replay the pending entries
as ordinary `updateAtom` calls in first-touched order, then clear both
maps; when an entry throws, the loop aborts and the maps are left
uncleared (the `clear` calls are never reached). -/
def txnCommit {V R : Type} (cfg : StoreCfg V R) (st : StoreState V)
    (t : Txn V) : StoreState V × Effects V R × Txn V × Bool :=
  match commitList cfg st Effects.empty t.changes with
  | (st2, eff, true) => (st2, eff, emptyTxn, true)
  | (st2, eff, false) => (st2, eff, t, false)

/-- The `rollback()` method of a transaction: discard both maps without
touching the store. -/
def txnRollback {V : Type} (_ : Txn V) : Txn V := emptyTxn

/-! ## Concrete test fixture

A small store instantiated at `V = Int`, `R = Int`, used by the
counterexamples and by the witnesses of the universally quantified
theorems.  The schema has two fields: `count` (validator accepts
non-negative integers) and `name` (validator accepts everything).
The store has a storage adapter, a sync adapter, one atom subscriber
per field, and one selector `sel1` depending on `count` only, with one
subscriber. -/

/-- Validators of the test schema: `count` accepts non-negative
integers, `name` accepts everything, other ids reject. -/
def testValidate : String → Int → Option Int := fun key v =>
  if key = "count" then (if 0 ≤ v then some v else none)
  else if key = "name" then some v
  else none

/-- The test selector: reads `count` from the snapshot. -/
def testSel : SelectorReg Int Int :=
  { id := "sel1",
    deps := ["count"],
    compute := fun snap => (lookupKey snap "count").getD 0 }

/-- The test store configuration. -/
def testCfg : StoreCfg Int Int :=
  { clientId := "local",
    validate := testValidate,
    hasStorage := true,
    hasSync := true,
    timeTravel := false,
    logChanges := false,
    atomSubs := fun key =>
      if key = "count" then [0] else if key = "name" then [1] else [],
    selectors := [testSel],
    selectorSubs := fun key => if key = "sel1" then [0] else [] }

/-- The test store state: `count` at 0, `name` at 7, not paused. -/
def testSt : StoreState Int :=
  { snapshot := [("count", 0), ("name", 7)],
    isPaused := false,
    timeline := [],
    counter := 0 }

/-- The two-step transaction scenario: a fresh transaction whose
`update` is called first for `(A, vA)` and then for `(B, vB)`
(the two atom ids may coincide, in which case the second write
overwrites the first). -/
def txnTwo {V R : Type} (cfg : StoreCfg V R) (st : StoreState V)
    (A : String) (vA : V) (B : String) (vB : V) : Txn V :=
  (txnUpdate cfg st (txnUpdate cfg st emptyTxn A vA).1 B vB).1

/-- A remote, non-optimistic change event for the `count` field,
originating from a peer store. -/
def eRemote : ChangeEvent Int :=
  { atomId := "count", prevValue := some 0, newValue := 5,
    timestamp := 11, changeId := 12, source := "peer", optimistic := false }

/-- A change event echoed back to the store that produced it:
its source is the local client id of the test store. -/
def eLoop : ChangeEvent Int :=
  { atomId := "count", prevValue := some 0, newValue := 8,
    timestamp := 21, changeId := 22, source := "local", optimistic := false }

/-- A change event for a field that is not in the test schema. -/
def eGhost : ChangeEvent Int :=
  { atomId := "ghost", prevValue := none, newValue := 3,
    timestamp := 5, changeId := 6, source := "peer", optimistic := false }

/-- A locally originated optimistic change event for `count`. -/
def eOpt : ChangeEvent Int :=
  { atomId := "count", prevValue := some 0, newValue := 4,
    timestamp := 3, changeId := 4, source := "local", optimistic := true }

/-- A change event for the `name` field, used as the unrelated field
of the selector claim. -/
def eName : ChangeEvent Int :=
  { atomId := "name", prevValue := some 7, newValue := 9,
    timestamp := 31, changeId := 32, source := "peer", optimistic := false }

/-- A change event for the `count` field, used as the depended-on field
of the selector claim. -/
def eCount : ChangeEvent Int :=
  { atomId := "count", prevValue := some 0, newValue := 6,
    timestamp := 41, changeId := 42, source := "peer", optimistic := false }

/-- The test configuration with change logging enabled. -/
def testCfgLog : StoreCfg Int Int :=
  { testCfg with logChanges := true }

/-! ## Helper lemmas -/

@[simp]
theorem Effects.append_storageSets {V R : Type} (a b : Effects V R) :
    (a ++ b).storageSets = a.storageSets ++ b.storageSets := rfl

@[simp]
theorem Effects.append_syncSends {V R : Type} (a b : Effects V R) :
    (a ++ b).syncSends = a.syncSends ++ b.syncSends := rfl

@[simp]
theorem Effects.append_notifications {V R : Type} (a b : Effects V R) :
    (a ++ b).notifications = a.notifications ++ b.notifications := rfl

@[simp]
theorem Effects.append_selectorComputes {V R : Type} (a b : Effects V R) :
    (a ++ b).selectorComputes = a.selectorComputes ++ b.selectorComputes := rfl

@[simp]
theorem Effects.append_selectorNotifs {V R : Type} (a b : Effects V R) :
    (a ++ b).selectorNotifs = a.selectorNotifs ++ b.selectorNotifs := rfl

@[simp]
theorem Effects.append_logs {V R : Type} (a b : Effects V R) :
    (a ++ b).logs = a.logs ++ b.logs := rfl

@[simp]
theorem Effects.append_appliedChanges {V R : Type} (a b : Effects V R) :
    (a ++ b).appliedChanges = a.appliedChanges ++ b.appliedChanges := rfl

@[simp]
theorem Effects.empty_storageSets {V R : Type} :
    (Effects.empty : Effects V R).storageSets = [] := rfl

@[simp]
theorem Effects.empty_syncSends {V R : Type} :
    (Effects.empty : Effects V R).syncSends = [] := rfl

@[simp]
theorem Effects.empty_notifications {V R : Type} :
    (Effects.empty : Effects V R).notifications = [] := rfl

@[simp]
theorem Effects.empty_selectorComputes {V R : Type} :
    (Effects.empty : Effects V R).selectorComputes = [] := rfl

@[simp]
theorem Effects.empty_selectorNotifs {V R : Type} :
    (Effects.empty : Effects V R).selectorNotifs = [] := rfl

@[simp]
theorem Effects.empty_logs {V R : Type} :
    (Effects.empty : Effects V R).logs = [] := rfl

@[simp]
theorem Effects.empty_appliedChanges {V R : Type} :
    (Effects.empty : Effects V R).appliedChanges = [] := rfl

@[simp]
theorem hasKey_setKey {V : Type} (l : List (String × V)) (key key2 : String)
    (value : V) : hasKey (setKey l key value) key2 = hasKey l key2 := by
  induction l with
  | nil => rfl
  | cons p rest ih =>
      obtain ⟨k, v0⟩ := p
      by_cases h : k = key
      · subst h
        simp only [setKey, if_pos rfl, hasKey, ih]
      · simp only [setKey, if_neg h, hasKey, ih]

theorem lookupKey_setKey_self {V : Type} {l : List (String × V)} {key : String}
    (value : V) (h : hasKey l key = true) :
    lookupKey (setKey l key value) key = some value := by
  induction l with
  | nil => simp [hasKey] at h
  | cons p rest ih =>
      obtain ⟨k, v0⟩ := p
      by_cases hk : k = key
      · subst hk
        simp [setKey, lookupKey]
      · simp only [hasKey, if_neg hk] at h
        simp [setKey, lookupKey, hk, ih h]

theorem lookupKey_setKey_other {V : Type} (l : List (String × V))
    {key key2 : String} (value : V) (h : key ≠ key2) :
    lookupKey (setKey l key value) key2 = lookupKey l key2 := by
  induction l with
  | nil => rfl
  | cons p rest ih =>
      obtain ⟨k, v0⟩ := p
      by_cases hk : k = key
      · subst hk
        simp [setKey, lookupKey, h, ih]
      · simp [setKey, lookupKey, hk, ih]

/-- Full characterization of an applied change: when the store is not
paused and the atom id is a key of the snapshot, `applyChange` replaces
the one snapshot entry and emits the side effects of that change in
order: one storage write when a storage adapter is present, one
`sendChange` when a sync adapter is present and the change is not
optimistic, a timeline entry when time travel is on, one callback per
subscriber of the atom (the event with `prevValue` from before the
change and `newValue` from the updated snapshot), and the selector
updates computed against the new snapshot. -/
theorem applyChange_ok {V R : Type} (cfg : StoreCfg V R) (st : StoreState V)
    (e : ChangeEvent V) (hp : st.isPaused = false)
    (hk : hasKey st.snapshot e.atomId = true) :
    applyChange cfg st e =
      ({ st with
           snapshot := setKey st.snapshot e.atomId e.newValue,
           timeline :=
             if cfg.timeTravel then
               st.timeline ++ [(setKey st.snapshot e.atomId e.newValue, e)]
             else st.timeline },
       { storageSets :=
           if cfg.hasStorage then [("state:" ++ e.atomId, e.newValue)] else [],
         syncSends := if cfg.hasSync && !e.optimistic then [e] else [],
         notifications := (cfg.atomSubs e.atomId).map (fun sub =>
           (e.atomId, sub,
            { e with prevValue := lookupKey st.snapshot e.atomId })),
         selectorComputes :=
           (updateSelectors cfg (setKey st.snapshot e.atomId e.newValue)
             e.atomId).1,
         selectorNotifs :=
           (updateSelectors cfg (setKey st.snapshot e.atomId e.newValue)
             e.atomId).2,
         logs := if cfg.logChanges then ["State change " ++ e.atomId] else [],
         appliedChanges := [e] }) := by
  unfold applyChange
  simp only [hp, hk, Bool.false_eq_true, if_false, if_true,
    lookupKey_setKey_self _ hk, Option.getD_some]

/-- Full characterization of a successful `updateAtom` call: the value
validates, the store is not paused, and the atom exists; the result
replaces the one snapshot entry, bumps the counter, appends to the
timeline when time travel is on, and emits exactly the side effects of
one applied change (one storage write when a storage adapter is
present, one `sendChange` when a sync adapter is present and the change
is not optimistic, one callback per subscriber of the atom carrying the
applied event, and the selector updates against the new snapshot). -/
theorem updateAtom_ok {V R : Type} (cfg : StoreCfg V R) (st : StoreState V)
    (atomId : String) (value validated : V) (optimistic : Bool)
    (hv : cfg.validate atomId value = some validated)
    (hp : st.isPaused = false)
    (hk : hasKey st.snapshot atomId = true) :
    updateAtom cfg st atomId value optimistic =
      Except.ok
        ({ st with
             snapshot := setKey st.snapshot atomId validated,
             counter := st.counter + 1,
             timeline :=
               if cfg.timeTravel then
                 st.timeline ++ [(setKey st.snapshot atomId validated,
                   createChangeEvent cfg.clientId st atomId validated optimistic)]
               else st.timeline },
         { storageSets :=
             if cfg.hasStorage then [("state:" ++ atomId, validated)] else [],
           syncSends :=
             if cfg.hasSync && !optimistic then
               [createChangeEvent cfg.clientId st atomId validated optimistic]
             else [],
           notifications := (cfg.atomSubs atomId).map (fun sub =>
             (atomId, sub,
              createChangeEvent cfg.clientId st atomId validated optimistic)),
           selectorComputes :=
             (updateSelectors cfg (setKey st.snapshot atomId validated) atomId).1,
           selectorNotifs :=
             (updateSelectors cfg (setKey st.snapshot atomId validated) atomId).2,
           logs := if cfg.logChanges then ["State change " ++ atomId] else [],
           appliedChanges :=
             [createChangeEvent cfg.clientId st atomId validated optimistic] }) := by
  unfold updateAtom
  rw [hv]
  unfold applyChange
  simp only [createChangeEvent, hp, hk, Bool.false_eq_true, if_false, if_true,
    lookupKey_setKey_self _ hk, Option.getD_some]

/-- Unfolding step of the commit loop on a successfully applied entry. -/
theorem commitList_cons_ok {V R : Type} {cfg : StoreCfg V R}
    {st st2 : StoreState V} {acc eff : Effects V R} {atomId : String}
    {value : V} {rest : List (String × V)}
    (h : updateAtom cfg st atomId value false = Except.ok (st2, eff)) :
    commitList cfg st acc ((atomId, value) :: rest) =
      commitList cfg st2 (acc ++ eff) rest := by
  rw [show commitList cfg st acc ((atomId, value) :: rest) =
        match updateAtom cfg st atomId value false with
        | Except.error _ => (st, acc, false)
        | Except.ok (st2, eff) => commitList cfg st2 (acc ++ eff) rest
      from rfl, h]

/-- The commit loop on an empty pending list leaves the store as it is. -/
theorem commitList_nil {V R : Type} (cfg : StoreCfg V R) (st : StoreState V)
    (acc : Effects V R) : commitList cfg st acc [] = (st, acc, true) := rfl

/-- The store state and the effect trace of a commit depend only on the
`changes` map of the transaction, not on `previousValues`. -/
theorem txnCommit_congr_changes {V R : Type} (cfg : StoreCfg V R)
    (st : StoreState V) {t u : Txn V} (h : t.changes = u.changes) :
    (txnCommit cfg st t).1 = (txnCommit cfg st u).1 ∧
    (txnCommit cfg st t).2.1 = (txnCommit cfg st u).2.1 := by
  unfold txnCommit
  rw [h]
  rcases hc : commitList cfg st Effects.empty u.changes with ⟨st2, eff, ok⟩
  cases ok <;> simp

/-! ## Claim theorems -/

/-- C1 counterexample: the claim says a remote-originated change is
never re-broadcast, but the source guards `sendChange` only on
`!change.optimistic`, never on the source of the change; applying the
concrete remote event `eRemote` (whose source `peer` differs from the
local identity) calls `sendChange` with exactly that event. -/
theorem remote_rebroadcast_cex :
    eRemote.source ≠ testCfg.clientId ∧
    (receiveChange testCfg testSt eRemote).2.syncSends = [eRemote] := by
  constructor
  · decide
  · rfl

/-- C1 amended: a Change Event received from the transport whose source
differs from the local identity is applied locally, and, whenever a sync
adapter is present and the event is not optimistic (and the store is not
paused and the field is known), the store re-broadcasts the event: it
calls `sendChange` with exactly that event. -/
theorem remote_change_rebroadcast {V R : Type} (cfg : StoreCfg V R)
    (st : StoreState V) (e : ChangeEvent V)
    (hs : e.source ≠ cfg.clientId)
    (hp : st.isPaused = false)
    (hk : hasKey st.snapshot e.atomId = true)
    (hsync : cfg.hasSync = true)
    (hopt : e.optimistic = false) :
    lookupKey (receiveChange cfg st e).1.snapshot e.atomId = some e.newValue ∧
    (receiveChange cfg st e).2.syncSends = [e] := by
  unfold receiveChange
  rw [if_neg hs]
  unfold applyChange
  simp [hp, hk, hsync, hopt, lookupKey_setKey_self _ hk]

/-- C1 witness. -/
theorem remote_change_rebroadcast_witness :
    eRemote.source ≠ testCfg.clientId ∧
    testSt.isPaused = false ∧
    hasKey testSt.snapshot eRemote.atomId = true ∧
    testCfg.hasSync = true ∧
    eRemote.optimistic = false ∧
    (lookupKey (receiveChange testCfg testSt eRemote).1.snapshot
        eRemote.atomId = some eRemote.newValue ∧
     (receiveChange testCfg testSt eRemote).2.syncSends = [eRemote]) :=
  ⟨by decide, rfl, by decide, rfl, rfl,
   remote_change_rebroadcast testCfg testSt eRemote (by decide) rfl
     (by decide) rfl rfl⟩

/-- C2: an imperative update with `optimistic = true` and a valid value
updates the snapshot entry of the field to the value, delivers the
change to every subscriber of the field (with the new value), and sends
nothing to the sync adapter. -/
theorem optimistic_update_applied_not_synced {V R : Type}
    (cfg : StoreCfg V R) (st : StoreState V) (F : String) (v : V)
    (hv : cfg.validate F v = some v)
    (hp : st.isPaused = false)
    (hk : hasKey st.snapshot F = true) :
    ∃ st2 eff, updateAtom cfg st F v true = Except.ok (st2, eff) ∧
      lookupKey st2.snapshot F = some v ∧
      eff.notifications.map (fun n => (n.1, n.2.1, n.2.2.newValue)) =
        (cfg.atomSubs F).map (fun sub => (F, sub, v)) ∧
      eff.syncSends = [] := by
  rw [updateAtom_ok cfg st F v v true hv hp hk]
  refine ⟨_, _, rfl, lookupKey_setKey_self v hk, ?_, ?_⟩
  · simp [List.map_map, Function.comp, createChangeEvent]
  · simp

/-- C2 witness. -/
theorem optimistic_update_applied_not_synced_witness :
    testCfg.validate "count" 5 = some 5 ∧
    testSt.isPaused = false ∧
    hasKey testSt.snapshot "count" = true ∧
    (∃ st2 eff, updateAtom testCfg testSt "count" 5 true =
        Except.ok (st2, eff) ∧
      lookupKey st2.snapshot "count" = some 5 ∧
      eff.notifications.map (fun n => (n.1, n.2.1, n.2.2.newValue)) =
        (testCfg.atomSubs "count").map (fun sub => ("count", sub, (5 : Int))) ∧
      eff.syncSends = []) :=
  ⟨by decide, rfl, by decide,
   optimistic_update_applied_not_synced testCfg testSt "count" 5
     (by decide) rfl (by decide)⟩

/-- C3 counterexample: the claim says an applied optimistic change
causes no persistence write, but the storage branch of `applyChange` is
guarded only on the presence of the adapter; the concrete optimistic
update of `count` to 4 writes `state:count` to storage. -/
theorem optimistic_change_persisted_cex :
    (updateAtom testCfg testSt "count" 4 true).toOption.map
        (fun p => p.2.storageSets) = some [("state:count", (4 : Int))] ∧
    (updateAtom testCfg testSt "count" 4 true).toOption.map
        (fun p => lookupKey p.1.snapshot "count") = some (some 4) := by
  constructor
  · rfl
  · rfl

/-- C3 amended: when a persistence collaborator is configured, the
store calls its `set` exactly once per applied change, keyed by the
field id under the fixed `state:` prefix, whether the change is
optimistic or not; with no persistence configured there is no write. -/
theorem storage_write_on_every_applied_change {V R : Type}
    (cfg : StoreCfg V R) (st : StoreState V) (e : ChangeEvent V)
    (hp : st.isPaused = false)
    (hk : hasKey st.snapshot e.atomId = true) :
    (applyChange cfg st e).2.storageSets =
      if cfg.hasStorage then [("state:" ++ e.atomId, e.newValue)] else [] := by
  unfold applyChange
  simp [hp, hk]

/-- C3 witness (at an optimistic event, showing the write happens for
optimistic changes as well). -/
theorem storage_write_on_every_applied_change_witness :
    testSt.isPaused = false ∧
    hasKey testSt.snapshot eOpt.atomId = true ∧
    (applyChange testCfg testSt eOpt).2.storageSets =
      (if testCfg.hasStorage then
        [("state:" ++ eOpt.atomId, eOpt.newValue)] else []) :=
  ⟨rfl, by decide,
   storage_write_on_every_applied_change testCfg testSt eOpt rfl (by decide)⟩

/-- C4: a Change Event delivered through the transport subscription
whose source equals the local store identity is discarded: the store
state (snapshot, timeline, pause flag, counter) is unchanged and the
effect trace is empty, so no atom or selector subscriber is notified. -/
theorem loopback_suppressed {V R : Type} (cfg : StoreCfg V R)
    (st : StoreState V) (e : ChangeEvent V)
    (hs : e.source = cfg.clientId) :
    receiveChange cfg st e = (st, Effects.empty) := by
  simp [receiveChange, hs]

/-- C4 witness. -/
theorem loopback_suppressed_witness :
    eLoop.source = testCfg.clientId ∧
    receiveChange testCfg testSt eLoop = (testSt, Effects.empty) :=
  ⟨rfl, loopback_suppressed testCfg testSt eLoop rfl⟩

/-- C7: an imperative update whose raw input is rejected by the
validator of the field fails with the validation error surfaced to the
caller; no state and no effect trace is produced, so the snapshot is
unchanged and no subscriber is notified. -/
theorem invalid_update_rejected {V R : Type} (cfg : StoreCfg V R)
    (st : StoreState V) (F : String) (x : V) (optimistic : Bool)
    (hx : cfg.validate F x = none) :
    updateAtom cfg st F x optimistic = Except.error () := by
  simp [updateAtom, hx]

/-- C7 witness. -/
theorem invalid_update_rejected_witness :
    testCfg.validate "count" (-5) = none ∧
    updateAtom testCfg testSt "count" (-5) false = Except.error () :=
  ⟨by decide,
   invalid_update_rejected testCfg testSt "count" (-5) false (by decide)⟩

/-- C8 counterexample: the claim says a change whose atom id is not a
key of the schema is dropped and logged, but the unknown-field branch
of `applyChange` returns before any logging (even with change logging
enabled, as here): the concrete unknown-field event produces an empty
log trace. -/
theorem unknown_field_not_logged_cex :
    hasKey testSt.snapshot eGhost.atomId = false ∧
    (applyChange testCfgLog testSt eGhost).2.logs = [] := by
  constructor
  · decide
  · rfl

/-- C8 amended: a Change Event whose atom id is not a key of the schema
is silently dropped without logging: the store state is unchanged and
the effect trace is empty (no subscriber notification, no persistence,
transport, timeline, selector, or log effect). -/
theorem unknown_field_noop {V R : Type} (cfg : StoreCfg V R)
    (st : StoreState V) (e : ChangeEvent V)
    (hk : hasKey st.snapshot e.atomId = false) :
    applyChange cfg st e = (st, Effects.empty) := by
  simp [applyChange, hk]

/-- C8 witness. -/
theorem unknown_field_noop_witness :
    hasKey testSt.snapshot eGhost.atomId = false ∧
    applyChange testCfgLog testSt eGhost = (testSt, Effects.empty) :=
  ⟨by decide, unknown_field_noop testCfgLog testSt eGhost (by decide)⟩

/-- C5: for a fresh transaction that updates a field `A` and then a
distinct field `B`, both valid: rollback discards the pending entries
(committing the rolled-back transaction leaves the store exactly as it
was, and the transaction functions never touch the store state at all);
commit succeeds, sets both fields to the committed values, and exactly
two change events are applied — the one for `A` before the one for `B`
— with the subscribers of `A` notified before those of `B`. -/
theorem txn_two_fields_rollback_commit {V R : Type} (cfg : StoreCfg V R)
    (st : StoreState V) (A B : String) (vA vB : V)
    (hAB : A ≠ B)
    (hA : hasKey st.snapshot A = true) (hB : hasKey st.snapshot B = true)
    (hvA : cfg.validate A vA = some vA) (hvB : cfg.validate B vB = some vB)
    (hp : st.isPaused = false) :
    txnRollback (txnTwo cfg st A vA B vB) = emptyTxn ∧
    txnCommit cfg st (txnRollback (txnTwo cfg st A vA B vB)) =
      (st, Effects.empty, emptyTxn, true) ∧
    (txnCommit cfg st (txnTwo cfg st A vA B vB)).2.2.2 = true ∧
    lookupKey (txnCommit cfg st (txnTwo cfg st A vA B vB)).1.snapshot A =
      some vA ∧
    lookupKey (txnCommit cfg st (txnTwo cfg st A vA B vB)).1.snapshot B =
      some vB ∧
    (txnCommit cfg st (txnTwo cfg st A vA B vB)).2.1.appliedChanges.map
        (fun e => (e.atomId, e.newValue)) = [(A, vA), (B, vB)] ∧
    (txnCommit cfg st (txnTwo cfg st A vA B vB)).2.1.notifications.map
        (fun n => (n.1, n.2.1, n.2.2.newValue)) =
      (cfg.atomSubs A).map (fun s => (A, s, vA)) ++
      (cfg.atomSubs B).map (fun s => (B, s, vB)) := by
  have htwo : txnTwo cfg st A vA B vB =
      ⟨[(A, vA), (B, vB)],
       [(A, lookupKey st.snapshot A), (B, lookupKey st.snapshot B)]⟩ := by
    simp [txnTwo, txnUpdate, emptyTxn, mapSet, hasKey, hvA, hvB, hAB]
  have hB1 : hasKey (setKey st.snapshot A vA) B = true := by
    rw [hasKey_setKey]; exact hB
  have e1 := updateAtom_ok cfg st A vA vA false hvA hp hA
  have e2 := updateAtom_ok cfg
      { st with
          snapshot := setKey st.snapshot A vA,
          counter := st.counter + 1,
          timeline :=
            if cfg.timeTravel then
              st.timeline ++ [(setKey st.snapshot A vA,
                createChangeEvent cfg.clientId st A vA false)]
            else st.timeline }
      B vB vB false hvB hp hB1
  rw [htwo]
  refine ⟨rfl, rfl, ?_, ?_, ?_, ?_, ?_⟩
  · unfold txnCommit
    rw [commitList_cons_ok e1, commitList_cons_ok e2, commitList_nil]
  · unfold txnCommit
    rw [commitList_cons_ok e1, commitList_cons_ok e2, commitList_nil]
    simp only []
    rw [show (setKey (setKey st.snapshot A vA) B vB) =
          setKey (setKey st.snapshot A vA) B vB from rfl]
    rw [lookupKey_setKey_other _ _ (Ne.symm hAB), lookupKey_setKey_self vA hA]
  · unfold txnCommit
    rw [commitList_cons_ok e1, commitList_cons_ok e2, commitList_nil]
    simp only []
    rw [lookupKey_setKey_self vB hB1]
  · unfold txnCommit
    rw [commitList_cons_ok e1, commitList_cons_ok e2, commitList_nil]
    simp [createChangeEvent]
  · unfold txnCommit
    rw [commitList_cons_ok e1, commitList_cons_ok e2, commitList_nil]
    simp [createChangeEvent, Function.comp]
    rfl

/-- C5 witness. -/
theorem txn_two_fields_rollback_commit_witness :
    "count" ≠ "name" ∧
    hasKey testSt.snapshot "count" = true ∧
    hasKey testSt.snapshot "name" = true ∧
    testCfg.validate "count" 2 = some 2 ∧
    testCfg.validate "name" 9 = some 9 ∧
    testSt.isPaused = false ∧
    (txnRollback (txnTwo testCfg testSt "count" 2 "name" 9) = emptyTxn ∧
     txnCommit testCfg testSt
         (txnRollback (txnTwo testCfg testSt "count" 2 "name" 9)) =
       (testSt, Effects.empty, emptyTxn, true) ∧
     (txnCommit testCfg testSt (txnTwo testCfg testSt "count" 2 "name" 9)).2.2.2 =
       true ∧
     lookupKey (txnCommit testCfg testSt
         (txnTwo testCfg testSt "count" 2 "name" 9)).1.snapshot "count" =
       some 2 ∧
     lookupKey (txnCommit testCfg testSt
         (txnTwo testCfg testSt "count" 2 "name" 9)).1.snapshot "name" =
       some 9 ∧
     (txnCommit testCfg testSt
         (txnTwo testCfg testSt "count" 2 "name" 9)).2.1.appliedChanges.map
         (fun e => (e.atomId, e.newValue)) = [("count", 2), ("name", 9)] ∧
     (txnCommit testCfg testSt
         (txnTwo testCfg testSt "count" 2 "name" 9)).2.1.notifications.map
         (fun n => (n.1, n.2.1, n.2.2.newValue)) =
       (testCfg.atomSubs "count").map (fun s => ("count", s, (2 : Int))) ++
       (testCfg.atomSubs "name").map (fun s => ("name", s, (9 : Int)))) :=
  ⟨by decide, by decide, by decide, by decide, by decide, rfl,
   txn_two_fields_rollback_commit testCfg testSt "count" "name" 2 9
     (by decide) (by decide) (by decide) (by decide) (by decide) rfl⟩

/-- C6: for a fresh transaction whose `update` is called twice for the
same field with valid values `v1` then `v2`, the pending map holds only
`v2` for that field; commit succeeds, applies exactly one change event
for the field with new value `v2`, sets the field to `v2`, and delivers
exactly one callback per subscriber of the field, with new value `v2`. -/
theorem txn_last_write_wins {V R : Type} (cfg : StoreCfg V R)
    (st : StoreState V) (F : String) (v1 v2 : V)
    (hv1 : cfg.validate F v1 = some v1) (hv2 : cfg.validate F v2 = some v2)
    (hF : hasKey st.snapshot F = true) (hp : st.isPaused = false) :
    (txnTwo cfg st F v1 F v2).changes = [(F, v2)] ∧
    (txnCommit cfg st (txnTwo cfg st F v1 F v2)).2.2.2 = true ∧
    lookupKey (txnCommit cfg st (txnTwo cfg st F v1 F v2)).1.snapshot F =
      some v2 ∧
    (txnCommit cfg st (txnTwo cfg st F v1 F v2)).2.1.appliedChanges.map
        (fun e => (e.atomId, e.newValue)) = [(F, v2)] ∧
    (txnCommit cfg st (txnTwo cfg st F v1 F v2)).2.1.notifications.map
        (fun n => (n.1, n.2.1, n.2.2.newValue)) =
      (cfg.atomSubs F).map (fun s => (F, s, v2)) := by
  have htwo : txnTwo cfg st F v1 F v2 =
      ⟨[(F, v2)], [(F, lookupKey st.snapshot F)]⟩ := by
    simp [txnTwo, txnUpdate, emptyTxn, mapSet, hasKey, hv1, hv2]
  have e1 := updateAtom_ok cfg st F v2 v2 false hv2 hp hF
  rw [htwo]
  refine ⟨rfl, ?_, ?_, ?_, ?_⟩
  · unfold txnCommit
    rw [commitList_cons_ok e1, commitList_nil]
  · unfold txnCommit
    rw [commitList_cons_ok e1, commitList_nil]
    simp only []
    rw [lookupKey_setKey_self v2 hF]
  · unfold txnCommit
    rw [commitList_cons_ok e1, commitList_nil]
    simp [createChangeEvent]
  · unfold txnCommit
    rw [commitList_cons_ok e1, commitList_nil]
    simp [createChangeEvent, Function.comp]

/-- C6 witness (the spec scenario: `count` updated to 1 then to 2). -/
theorem txn_last_write_wins_witness :
    testCfg.validate "count" 1 = some 1 ∧
    testCfg.validate "count" 2 = some 2 ∧
    hasKey testSt.snapshot "count" = true ∧
    testSt.isPaused = false ∧
    ((txnTwo testCfg testSt "count" 1 "count" 2).changes = [("count", 2)] ∧
     (txnCommit testCfg testSt
         (txnTwo testCfg testSt "count" 1 "count" 2)).2.2.2 = true ∧
     lookupKey (txnCommit testCfg testSt
         (txnTwo testCfg testSt "count" 1 "count" 2)).1.snapshot "count" =
       some 2 ∧
     (txnCommit testCfg testSt
         (txnTwo testCfg testSt "count" 1 "count" 2)).2.1.appliedChanges.map
         (fun e => (e.atomId, e.newValue)) = [("count", 2)] ∧
     (txnCommit testCfg testSt
         (txnTwo testCfg testSt "count" 1 "count" 2)).2.1.notifications.map
         (fun n => (n.1, n.2.1, n.2.2.newValue)) =
       (testCfg.atomSubs "count").map (fun s => ("count", s, (2 : Int)))) :=
  ⟨by decide, by decide, by decide, rfl,
   txn_last_write_wins testCfg testSt "count" 1 2
     (by decide) (by decide) (by decide) rfl⟩

/-- C10: calling a transaction `update` with a value the validator of
the field rejects throws at update time (not deferred to commit), the
pending `changes` map is the same after the call as before it, and a
later commit therefore produces the same store state and the same
effect trace as committing the transaction without that call. -/
theorem txn_update_invalid_throws {V R : Type} (cfg : StoreCfg V R)
    (st : StoreState V) (t : Txn V) (atomId : String) (v : V)
    (hv : cfg.validate atomId v = none) :
    (txnUpdate cfg st t atomId v).2 = false ∧
    (txnUpdate cfg st t atomId v).1.changes = t.changes ∧
    (txnCommit cfg st (txnUpdate cfg st t atomId v).1).1 =
      (txnCommit cfg st t).1 ∧
    (txnCommit cfg st (txnUpdate cfg st t atomId v).1).2.1 =
      (txnCommit cfg st t).2.1 := by
  have h2 : (txnUpdate cfg st t atomId v).1.changes = t.changes := by
    simp [txnUpdate, hv]
  have h3 := txnCommit_congr_changes cfg st h2
  exact ⟨by simp [txnUpdate, hv], h2, h3.1, h3.2⟩

/-- C10 witness. -/
theorem txn_update_invalid_throws_witness :
    testCfg.validate "count" (-1) = none ∧
    ((txnUpdate testCfg testSt emptyTxn "count" (-1)).2 = false ∧
     (txnUpdate testCfg testSt emptyTxn "count" (-1)).1.changes =
       emptyTxn.changes ∧
     (txnCommit testCfg testSt
         (txnUpdate testCfg testSt emptyTxn "count" (-1)).1).1 =
       (txnCommit testCfg testSt (emptyTxn : Txn Int)).1 ∧
     (txnCommit testCfg testSt
         (txnUpdate testCfg testSt emptyTxn "count" (-1)).1).2.1 =
       (txnCommit testCfg testSt (emptyTxn : Txn Int)).2.1) :=
  ⟨by decide,
   txn_update_invalid_throws testCfg testSt emptyTxn "count" (-1) (by decide)⟩

/-- C9: for a registered selector whose dependency set is exactly the
changed field and that has a subscriber: an applied change to that
field recomputes the selector against the new snapshot and delivers
the recomputed value to the subscriber, while an applied change to any
other field does not recompute the selector at all (selector ids are
unique, as the source keys the cache by freshly generated ids). -/
theorem selector_recompute_exact {V R : Type} (cfg : StoreCfg V R)
    (st : StoreState V) (e1 e2 : ChangeEvent V) (reg : SelectorReg V R)
    (sub : Nat)
    (hreg : reg ∈ cfg.selectors)
    (hdeps : reg.deps = [e1.atomId])
    (hsub : sub ∈ cfg.selectorSubs reg.id)
    (hNodup : (cfg.selectors.map (fun r => r.id)).Nodup)
    (hp : st.isPaused = false)
    (hk1 : hasKey st.snapshot e1.atomId = true)
    (hk2 : hasKey st.snapshot e2.atomId = true)
    (hne : e2.atomId ≠ e1.atomId) :
    (reg.id ∈ (applyChange cfg st e1).2.selectorComputes ∧
     (reg.id, sub, reg.compute (applyChange cfg st e1).1.snapshot) ∈
       (applyChange cfg st e1).2.selectorNotifs) ∧
    reg.id ∉ (applyChange cfg st e2).2.selectorComputes := by
  have haff : reg ∈ cfg.selectors.filter
      (fun r => decide (e1.atomId ∈ r.deps)) :=
    List.mem_filter.mpr ⟨hreg, by simp [hdeps]⟩
  refine ⟨⟨?_, ?_⟩, ?_⟩
  · rw [applyChange_ok cfg st e1 hp hk1]
    exact List.mem_map_of_mem _ haff
  · rw [applyChange_ok cfg st e1 hp hk1]
    exact List.mem_flatMap.mpr ⟨reg, haff, List.mem_map_of_mem _ hsub⟩
  · intro hmem
    rw [applyChange_ok cfg st e2 hp hk2] at hmem
    obtain ⟨r, hrf, hrid⟩ := List.mem_map.mp hmem
    obtain ⟨hrsel, hrdep⟩ := List.mem_filter.mp hrf
    have hr : r = reg := List.inj_on_of_nodup_map hNodup hrsel hreg hrid
    subst hr
    have hd : e2.atomId ∈ r.deps := of_decide_eq_true hrdep
    rw [hdeps] at hd
    simp only [List.mem_singleton] at hd
    exact hne hd

/-- C9 witness. -/
theorem selector_recompute_exact_witness :
    testSel ∈ testCfg.selectors ∧
    testSel.deps = [eCount.atomId] ∧
    0 ∈ testCfg.selectorSubs testSel.id ∧
    (testCfg.selectors.map (fun r => r.id)).Nodup ∧
    testSt.isPaused = false ∧
    hasKey testSt.snapshot eCount.atomId = true ∧
    hasKey testSt.snapshot eName.atomId = true ∧
    eName.atomId ≠ eCount.atomId ∧
    ((testSel.id ∈ (applyChange testCfg testSt eCount).2.selectorComputes ∧
      (testSel.id, 0,
       testSel.compute (applyChange testCfg testSt eCount).1.snapshot) ∈
        (applyChange testCfg testSt eCount).2.selectorNotifs) ∧
     testSel.id ∉ (applyChange testCfg testSt eName).2.selectorComputes) :=
  ⟨List.mem_cons_self testSel [], rfl, by decide, by decide, rfl,
   by decide, by decide, by decide,
   selector_recompute_exact testCfg testSt eCount eName testSel 0
     (List.mem_cons_self testSel []) rfl (by decide) (by decide) rfl
     (by decide) (by decide) (by decide)⟩

end MagicState
